import Mathlib

/-!
Shallow embedding of the matplotlib rendering core of this repository
(`holoviews/plotting/mpl/renderer.py`) together with a spec-level model of
the link registry and range-link resolution protocol (whose implementation
file is not part of the sources, only its tests).

Conventions:
* Python dicts that are only read/written at fixed keys become Lean
  structures; dicts merged with `dict(a, **b)` become association lists with
  an explicit right-biased merge.
* Machine floats of the bounding-box arithmetic are modelled as rationals.
* Object identity (`id(fig)`, backend handle identity) is modelled as `Nat`.
* Fallible paths return `Except Err _`; external effects (canvas draws,
  animation construction, encoder invocation, file writes) are recorded in
  explicit effect counters threaded through the functions.
-/

set_option autoImplicit false

namespace DataViews

/-- Errors raised by the embedded code.  `exception` is Python's bare
`Exception`; the other constructors stand for the distinct built-in error
classes the claims talk about. -/
inductive Err where
  | exception (msg : String)
  | environmentError (msg : String)
  | unsupportedOperationError (msg : String)
  | keyError (key : String)
  | nameError (name : String)
  | typeError
  | drawError
deriving DecidableEq

/-- A matplotlib `Bbox`: an axis-aligned rectangle given by two corners. -/
structure Bbox where
  x0 : ℚ
  y0 : ℚ
  x1 : ℚ
  y1 : ℚ
deriving DecidableEq

def Bbox.width (b : Bbox) : ℚ := b.x1 - b.x0

def Bbox.height (b : Bbox) : ℚ := b.y1 - b.y0

/-- `matplotlib.transforms.Bbox.intersection`: the overlapping rectangle, or
`none` when the two boxes do not intersect. -/
def Bbox.intersection (a b : Bbox) : Option Bbox :=
  let x0 := max a.x0 b.x0
  let x1 := min a.x1 b.x1
  let y0 := max a.y0 b.y0
  let y1 := min a.y1 b.y1
  if x0 ≤ x1 ∧ y0 ≤ y1 then some ⟨x0, y0, x1, y1⟩ else none

/-- Union of two bboxes (bounding rectangle of both). -/
def Bbox.union2 (a b : Bbox) : Bbox :=
  ⟨min a.x0 b.x0, min a.y0 b.y0, max a.x1 b.x1, max a.y1 b.y1⟩

/-- `Bbox.union` over a non-empty list, written head/tail. -/
def Bbox.unionList (b : Bbox) (rest : List Bbox) : Bbox :=
  rest.foldl Bbox.union2 b

/-- `TransformedBbox(bbox, Affine2D().scale(s))`: scale all coordinates. -/
def Bbox.scale (s : ℚ) (b : Bbox) : Bbox :=
  ⟨s * b.x0, s * b.y0, s * b.x1, s * b.y1⟩

/-- `Bbox.padded(p)`: grow the rectangle by `p` on every side. -/
def Bbox.padded (p : ℚ) (b : Bbox) : Bbox :=
  ⟨b.x0 - p, b.y0 - p, b.x1 + p, b.y1 + p⟩

/-- One entry of `fig.get_default_bbox_extra_artists()`, reduced to what the
tight-bbox loop reads from it: its window extent, its clip flag, its clip box
and the extents of its fully transformed clip path. -/
structure Artist where
  windowExtent : Bbox
  clipOn : Bool
  clipBox : Option Bbox
  clipPathExtents : Option Bbox
deriving DecidableEq

/-- The body of the artist loop of `_compute_bbox`: clip the window extent by
the clip box and clip path when clipping is on; `none` means matplotlib
returned `None` from an intersection. -/
def artistBbox (a : Artist) : Option Bbox :=
  if a.clipOn then
    let bbox := match a.clipBox with
      | some cb => Bbox.intersection a.windowExtent cb
      | none => some a.windowExtent
    match a.clipPathExtents, bbox with
      | some cp, some b => Bbox.intersection b cp
      | _, _ => bbox
  else some a.windowExtent

/-- `bbox_filtered`: artists whose (clipped) extent exists and has non-zero
width or height. -/
def filteredBboxes (arts : List Artist) : List Bbox :=
  arts.filterMap fun a =>
    match artistBbox a with
    | some b => if b.width ≠ 0 ∨ b.height ≠ 0 then some b else none
    | none => none

/-- A matplotlib figure, reduced to what the renderer reads from it.
`figId` is `id(fig)`, `tightbbox` is `fig.get_tightbbox(renderer)` after a
draw, `extraArtists` is `fig.get_default_bbox_extra_artists()`, and
`canvasDrawFails` models the external `fig.canvas.draw()` call raising. -/
structure Figure where
  figId : Nat
  tightbbox : Bbox
  extraArtists : List Artist
  canvasDrawFails : Bool
  facecolor : String
  edgecolor : String
deriving DecidableEq

/-- The tight bounding box `_compute_bbox` computes on a cache miss: union
the figure tight extent with the (clipped, non-degenerate) extra-artist
extents scaled from device units to inches, then pad by the configured
`savefig.pad_inches` fraction. -/
def tightBBox (dpi pad : ℚ) (fig : Figure) : Bbox :=
  let bbox_inches := fig.tightbbox
  let bbox_inches :=
    match filteredBboxes fig.extraArtists with
    | [] => bbox_inches
    | b :: rest => Bbox.union2 bbox_inches (Bbox.scale (1 / dpi) (Bbox.unionList b rest))
  bbox_inches.padded pad

/-- Static output format tokens the renderer compares against. -/
inductive Fmt where
  | png
  | svg
  | pdf
  | html
  | json
  | webm
  | mp4
  | gif
  | scrubber
deriving DecidableEq

/-- The `bbox_inches` entry of the keyword mapping: either the string
`tight`, a concrete rectangle, or some other caller-supplied value. -/
inductive BI where
  | tight
  | box (b : Bbox)
  | otherBI (tag : String)
deriving DecidableEq

/-- The keyword mapping `_figure_data` assembles and `_compute_bbox`
reads/writes (only the `format` and `bbox_inches` keys are ever touched by
`_compute_bbox`). -/
structure KW where
  format : Fmt
  facecolor : String
  edgecolor : String
  dpi : Option ℚ
  bbox_inches : BI
deriving DecidableEq

/-- Renderer-side mutable state: `MPLRenderer.drawn`, the class-level cache
from `id(fig)` to the computed tight bbox, plus a counter of the canvas
draws performed by `_compute_bbox`. -/
structure RState where
  drawn : List (Nat × Bbox)
  draws : Nat
deriving DecidableEq

/-- Lookup in the `drawn` cache (`fig_id in MPLRenderer.drawn`). -/
def lookupCache : List (Nat × Bbox) → Nat → Option Bbox
  | [], _ => none
  | (k, v) :: rest, i => if k = i then some v else lookupCache rest i

/-- `MPLRenderer._compute_bbox`.  On the tight-png path it consults the
class-level cache: on a miss it sets the figure dpi (raising when the
renderer has no configured dpi, as `set_dpi(None)` does), draws the canvas
once, computes `tightBBox` and stores it keyed by `id(fig)`; on a hit it
returns the stored rectangle untouched.  For any other format/crop the
keyword mapping and the state pass through unchanged. -/
def computeBboxE (dpi : Option ℚ) (pad : ℚ) (st : RState) (fig : Figure) (kw : KW) :
    Except Err (KW × RState) :=
  if kw.bbox_inches = BI.tight ∧ kw.format = Fmt.png then
    match lookupCache st.drawn fig.figId with
    | some bb => .ok ({kw with bbox_inches := BI.box bb}, st)
    | none =>
      match dpi with
      | none => .error Err.typeError
      | some d =>
        if fig.canvasDrawFails then .error Err.drawError
        else
          let bb := tightBBox d pad fig
          .ok ({kw with bbox_inches := BI.box bb},
               ⟨(fig.figId, bb) :: st.drawn, st.draws + 1⟩)
  else .ok (kw, st)

/-- Renderer interaction modes (`MPLRenderer.mode`). -/
inductive Mode where
  | defaultMode
  | d3
  | nbagg
deriving DecidableEq

/-- What `_figure_data` hands back: on the static path, the record of the
external `fig.canvas.print_figure` call (figure identity plus the keyword
mapping actually used); on the nbagg path the empty string; on the d3 path
the mpld3 JSON tree or inline HTML for the figure. -/
inductive FigOutput where
  | printed (figId : Nat) (kw : KW)
  | emptyOut
  | d3html (figId : Nat)
  | d3json (figId : Nat)
deriving DecidableEq

/-- The keyword mapping `_figure_data` builds before the bbox attempt:
format, figure face/edge colors, the renderer dpi and the crop setting. -/
def mkKw (fig : Figure) (fmt : Fmt) (dpi : Option ℚ) (bbox0 : BI) : KW :=
  { format := fmt
    facecolor := fig.facecolor
    edgecolor := fig.edgecolor
    dpi := dpi
    bbox_inches := bbox0 }

/-- `MPLRenderer._figure_data`.  The nbagg and d3 modes short-circuit; the
static mode assembles the keyword mapping, attempts `_compute_bbox` under a
bare `try`/`except: pass` (so a failing bbox computation leaves the mapping
and the cache untouched) and then prints the figure with whatever mapping
survived. -/
def figureData (mode : Mode) (dpi : Option ℚ) (pad : ℚ) (st : RState) (fig : Figure)
    (fmt : Fmt) (bbox0 : BI) : FigOutput × RState :=
  match mode with
  | Mode.nbagg => (FigOutput.emptyOut, st)
  | Mode.d3 =>
    (if fmt = Fmt.json then FigOutput.d3json fig.figId else FigOutput.d3html fig.figId, st)
  | Mode.defaultMode =>
    let kw := mkKw fig fmt dpi bbox0
    match computeBboxE dpi pad st fig kw with
    | .ok (kw2, st2) => (FigOutput.printed fig.figId kw2, st2)
    | .error _ => (FigOutput.printed fig.figId kw, st)

/-- Values stored in the animation keyword mappings: strings (codec names),
numbers (fps, dpi) and the `extra_args` entry, whose value is either a list
of pipeline arguments or Python `None`. -/
inductive Val where
  | str (s : String)
  | num (q : ℚ)
  | args (a : Option (List String))
deriving DecidableEq

/-- Lookup in an association list standing for a Python dict. -/
def slookup {α : Type} : List (String × α) → String → Option α
  | [], _ => none
  | (k, v) :: rest, key => if k = key then some v else slookup rest key

/-- `dict(a, **b)`: entries of `b` override entries of `a` (entry order is
irrelevant to the lookups the theorems state). -/
def dictMerge {α : Type} (a b : List (String × α)) : List (String × α) :=
  a.filter (fun p => (slookup b p.1).isNone) ++ b

/-- One row of `MPLRenderer.ANIMATION_OPTS`:
`(animation writer, format, anim_kwargs, extra_args)`. -/
structure AnimOpt where
  writer : String
  container : Option String
  animKwargs : List (String × Val)
  extraArgs : Option (List String)
deriving DecidableEq

/-- `MPLRenderer.ANIMATION_OPTS`, as a partial lookup (indexing a missing
format is a `KeyError`). -/
def ANIMATION_OPTS : Fmt → Option AnimOpt
  | Fmt.webm => some ⟨"ffmpeg", some "webm", [], some ["-vcodec", "libvpx", "-b", "1000k"]⟩
  | Fmt.mp4 => some ⟨"ffmpeg", some "mp4", [("codec", Val.str "libx264")], some ["-pix_fmt", "yuv420p"]⟩
  | Fmt.gif => some ⟨"imagemagick", some "gif", [("fps", Val.num 10)], some []⟩
  | Fmt.scrubber => some ⟨"html", none, [("fps", Val.num 5)], none⟩
  | _ => none

/-- The keyword mapping `_anim_data` hands to `anim.save`, assembled exactly
in source order: add `extra_args` when the table value differs from the
empty list (`extra_args != []`, so the `None` entry is added too); merge
`dpi` when the renderer dpi is not `None`; merge a base `fps` only for the
gif format (overridden by the table's own `fps` when present); finally the
`anim.save` call merges `dpi` once more under Python truthiness. -/
def animSaveKwargs (dpi : Option ℚ) (fps : ℚ) (fmt : Fmt) (opt : AnimOpt) :
    List (String × Val) :=
  let k1 := if opt.extraArgs ≠ some [] then
      dictMerge opt.animKwargs [("extra_args", Val.args opt.extraArgs)]
    else opt.animKwargs
  let k2 := dictMerge k1 (match dpi with
    | some d => [("dpi", Val.num d)]
    | none => [])
  let k3 := dictMerge (if fmt = Fmt.gif then [("fps", Val.num fps)] else []) k2
  dictMerge k3 (match dpi with
    | some d => if d ≠ 0 then [("dpi", Val.num d)] else []
    | none => [])

/-- A matplotlib animation object: its identity, and whether it carries the
`_encoded_video` attribute (`hasattr(anim, '_encoded_video')`). -/
structure AnimObj where
  animId : Nat
  hasEncodedVideo : Bool
deriving DecidableEq

/-- Record of one external-encoder invocation: which writer ran, with which
keyword mapping, on which animation.  The bytes read back from the temporary
file are determined by exactly these inputs. -/
structure EncResult where
  writer : String
  kwargs : List (String × Val)
  animId : Nat
deriving DecidableEq

/-- `MPLRenderer._anim_data`.  Looks the format up in `ANIMATION_OPTS`
(`KeyError` when absent), assembles the keyword mapping, and encodes through
the temporary file only when the animation has no `_encoded_video`
attribute; when it does, the `video` variable is never assigned and the
trailing `return video` raises an unbound-name error. -/
def animDataE (dpi : Option ℚ) (fps : ℚ) (anim : AnimObj) (fmt : Fmt) :
    Except Err EncResult :=
  match ANIMATION_OPTS fmt with
  | none => .error (Err.keyError "fmt")
  | some opt =>
    if anim.hasEncodedVideo then .error (Err.nameError "video")
    else .ok ⟨opt.writer, animSaveKwargs dpi fps fmt opt, anim.animId⟩

/-- The execution environment `__call__` inspects:
`sys.version_info[0]` and `matplotlib.__version__`. -/
structure Env where
  pyMajor : Nat
  mplVersion : String
deriving DecidableEq

/-- Python `s[:-2]`: drop the last two characters (empty when shorter). -/
def verTrunc (s : String) : String := String.mk (s.data.take (s.data.length - 2))

/-- A resolved plot object as the facade consumes it: its figure
(`plot.state`) and the animation `plot.anim(fps=...)` would construct. -/
structure Plot where
  fig : Figure
  animObj : AnimObj
deriving DecidableEq

/-- The payload of a successful render. -/
inductive RData where
  | figOut (o : FigOutput)
  | animOut (e : EncResult)
deriving DecidableEq

/-- The `(data, {'file-ext': fmt, ...})` pair `__call__` returns (the mime
type comes from the external `MIME_TYPES` table and carries no information
beyond the format). -/
structure Output where
  data : RData
  fileExt : Fmt
deriving DecidableEq

/-- External effects of one `__call__`: how many animations were constructed
(`plot.anim(...)`) and how many external-encoder invocations ran. -/
structure Effects where
  animsConstructed : Nat
  encoderRuns : Nat
deriving DecidableEq

/-- The static-format set `__call__` tests membership in. -/
def figFormats : List Fmt := [Fmt.png, Fmt.svg, Fmt.pdf, Fmt.html, Fmt.json]

/-- The message of the fail-fast animation-support check. -/
def brokenAnimMsg : String :=
  "<b>Python 3 matplotlib animation support broken &lt;= 1.3</b>"

/-- `MPLRenderer.__call__` after `_validate` (external) resolved the plot:
`none` renders nothing; static formats go through `_figure_data`; any other
format first runs the Python-3/matplotlib-version compatibility check,
raising a bare `Exception` before constructing the animation, and otherwise
constructs the animation and encodes it. -/
def callRenderer (env : Env) (mode : Mode) (dpi : Option ℚ) (fps pad : ℚ) (st : RState)
    (plotOpt : Option Plot) (fmt : Fmt) :
    Except Err (Option Output) × RState × Effects :=
  match plotOpt with
  | none => (.ok none, st, ⟨0, 0⟩)
  | some plot =>
    if fmt ∈ figFormats then
      let (out, st2) := figureData mode dpi pad st plot.fig fmt BI.tight
      (.ok (some ⟨RData.figOut out, fmt⟩), st2, ⟨0, 0⟩)
    else
      if env.pyMajor = 3 ∧ (verTrunc env.mplVersion = "1.2" ∨ verTrunc env.mplVersion = "1.3") then
        (.error (Err.exception brokenAnimMsg), st, ⟨0, 0⟩)
      else
        match animDataE dpi fps plot.animObj fmt with
        | .ok enc => (.ok (some ⟨RData.animOut enc, fmt⟩), st, ⟨1, 1⟩)
        | .error e => (.error e, st, ⟨1, 0⟩)

/-- Extension string of a format token (`'%s.%s' % (basename, ext)`). -/
def fmtExt : Fmt → String
  | Fmt.png => "png"
  | Fmt.svg => "svg"
  | Fmt.pdf => "pdf"
  | Fmt.html => "html"
  | Fmt.json => "json"
  | Fmt.webm => "webm"
  | Fmt.mp4 => "mp4"
  | Fmt.gif => "gif"
  | Fmt.scrubber => "scrubber"

/-- External effects of one `save` call: number of render invocations and the
names of the files written. -/
structure SaveEffects where
  renders : Nat
  filesWritten : List String
deriving DecidableEq

/-- `MPLRenderer.save`.  The out-of-band metadata guard (`if info or key`)
raises a bare `Exception` before anything is rendered or written; otherwise
it renders (`None` renders write nothing) and writes the single file
`<basename>.<file-ext>` in binary mode. -/
def saveRenderer (env : Env) (mode : Mode) (dpi : Option ℚ) (fps pad : ℚ) (st : RState)
    (key info : List (String × String)) (plotOpt : Option Plot) (basename : String)
    (fmt : Fmt) : Except Err Unit × SaveEffects :=
  if info ≠ [] ∨ key ≠ [] then
    (.error (Err.exception "MPLRenderer does not support saving metadata to file."), ⟨0, []⟩)
  else
    match callRenderer env mode dpi fps pad st plotOpt fmt with
    | (.error e, _, _) => (.error e, ⟨1, []⟩)
    | (.ok none, _, _) => (.ok (), ⟨1, []⟩)
    | (.ok (some out), _, _) => (.ok (), ⟨1, [basename ++ "." ++ fmtExt out.fileExt]⟩)

/-- A value of the resolved plot-options dict: `fig_inches` may be a pair, a
scalar, or some other option value. -/
inductive PVal where
  | pair (a b : ℚ)
  | scalar (q : ℚ)
  | otherP (tag : String)
deriving DecidableEq

/-- `MPLRenderer.plot_options`.  `options` is the resolved plot-option dict
`Store.lookup_options(backend, obj, 'plot').options` of the (HoloMap-
resolved) object and `defaultFigInches` is the external class default
`MPLPlot.fig_inches` (a scalar).  Mirrors the source: scale a pair
elementwise by `percent_size / 100`, replace anything else by the scaled
class default, then build `dict({'fig_inches': scaled}, **options)` — whose
right-biased merge lets an explicit `fig_inches` option override the scaled
value. -/
def plot_options (defaultFigInches : ℚ) (options : List (String × PVal))
    (percentSize : ℚ) : List (String × PVal) :=
  let factor := percentSize / 100
  let figInches := (slookup options "fig_inches").getD (PVal.scalar defaultFigInches)
  let figInches := match figInches with
    | PVal.pair a b => PVal.pair (a * factor) (b * factor)
    | _ => PVal.scalar (defaultFigInches * factor)
  dictMerge [("fig_inches", figInches)] options

/-- Link kinds of the declaration protocol. -/
inductive LinkKind where
  | rangeLink
  | dataLink
  | custom
deriving DecidableEq

/-- The axis subset of a range-link (`axes ⊆ {x, y}`). -/
structure AxisSet where
  x : Bool
  y : Bool
deriving DecidableEq

/-- Modelled from the spec: a link declaration (the implementation file
`holoviews/plotting/links.py` is not among the sources, only its tests).
Binds a source element to a target element with a kind, an axis subset and a
transience flag; elements are referred to by identity. -/
structure SLink where
  source : Nat
  target : Nat
  kind : LinkKind
  axes : AxisSet
  transient : Bool
deriving DecidableEq

/-- The process-wide link registry: element identity to the ordered sequence
of links declared with that element as source. -/
abbrev Registry : Type := List (Nat × List SLink)

/-- Links registered for a source element (empty when none). -/
def lookupLinks : Registry → Nat → List SLink
  | [], _ => []
  | (k, ls) :: rest, i => if k = i then ls else lookupLinks rest i

/-- Two declarations are identical when their (source, target, kind) triple
coincides. -/
def sameTriple (a b : SLink) : Bool :=
  a.source = b.source ∧ a.target = b.target ∧ a.kind = b.kind

/-- Insert a link at the end of its source's sequence. -/
def addLink : Registry → SLink → Registry
  | [], l => [(l.source, [l])]
  | (k, ls) :: rest, l =>
    if k = l.source then (k, ls ++ [l]) :: rest else (k, ls) :: addLink rest l

/-- Modelled from the spec: `declare(source, target, kind, axes, transient)`
registers a link in the registry keyed by the source, and re-declaring an
identical (source, target, kind) triple is a no-op — no duplicate entry is
stored. -/
def declare (reg : Registry) (l : SLink) : Registry :=
  if (lookupLinks reg l.source).any (fun e => sameTriple e l) then reg
  else addLink reg l

/-- Number of links for `src` matching the (source, target, kind) triple of
`l`. -/
def tripleCount (reg : Registry) (l : SLink) : Nat :=
  ((lookupLinks reg l.source).filter (fun e => sameTriple e l)).length

/-- The axis-range handles of a rendered sub-plot; each handle is the
identity of a live backend range object. -/
structure Handles where
  x_range : Nat
  y_range : Nat
deriving DecidableEq

/-- Modelled from the spec: range-link resolution (the resolver lives in
code outside the sources).  For each axis in the link's axis set, the target
sub-plot's axis-range handle is replaced by the source sub-plot's handle
(object sharing, not value copy); the other axes keep the target's own
handles. -/
def resolveRangeLink (axes : AxisSet) (src tgt : Handles) : Handles :=
  { x_range := if axes.x then src.x_range else tgt.x_range
    y_range := if axes.y then src.y_range else tgt.y_range }

/-! ## Theorems -/

/-- C1: for a figure and a render request with format png and tight crop,
the first `_compute_bbox` call for that figure identity draws the canvas
once, computes the tight bounding box `tightBBox` (figure extent unioned
with the clipped extra-artist extents, padded by the configured fraction)
and stores it in the class-level cache keyed by the figure identity; every
subsequent call for the same identity — even under different renderer
settings — returns exactly the stored rectangle with no further draw and no
state change. -/
theorem compute_bbox_caches_tight_crop (d pad pad₂ : ℚ) (dpi₂ : Option ℚ) (st : RState)
    (fig : Figure) (kw kw₂ : KW)
    (hf : kw.format = Fmt.png) (hb : kw.bbox_inches = BI.tight)
    (hf₂ : kw₂.format = Fmt.png) (hb₂ : kw₂.bbox_inches = BI.tight)
    (hmiss : lookupCache st.drawn fig.figId = none)
    (hdraw : fig.canvasDrawFails = false) :
    computeBboxE (some d) pad st fig kw =
      .ok ({kw with bbox_inches := BI.box (tightBBox d pad fig)},
           ⟨(fig.figId, tightBBox d pad fig) :: st.drawn, st.draws + 1⟩) ∧
    computeBboxE dpi₂ pad₂ ⟨(fig.figId, tightBBox d pad fig) :: st.drawn, st.draws + 1⟩
        fig kw₂ =
      .ok ({kw₂ with bbox_inches := BI.box (tightBBox d pad fig)},
           ⟨(fig.figId, tightBBox d pad fig) :: st.drawn, st.draws + 1⟩) := by
  constructor
  · simp [computeBboxE, hf, hb, hmiss, hdraw]
  · simp [computeBboxE, hf₂, hb₂, lookupCache]

/-- Witness for C1 at a concrete figure, cache and request. -/
theorem compute_bbox_caches_tight_crop_witness :
    (mkKw ⟨7, ⟨0, 0, 4, 3⟩, [], false, "w", "k"⟩ Fmt.png (some 2) BI.tight).format = Fmt.png ∧
    (mkKw ⟨7, ⟨0, 0, 4, 3⟩, [], false, "w", "k"⟩ Fmt.png (some 2) BI.tight).bbox_inches = BI.tight ∧
    lookupCache ([] : List (Nat × Bbox)) (7 : Nat) = none ∧
    (⟨7, ⟨0, 0, 4, 3⟩, [], false, "w", "k"⟩ : Figure).canvasDrawFails = false ∧
    (computeBboxE (some 2) 1 ⟨[], 0⟩ ⟨7, ⟨0, 0, 4, 3⟩, [], false, "w", "k"⟩
        (mkKw ⟨7, ⟨0, 0, 4, 3⟩, [], false, "w", "k"⟩ Fmt.png (some 2) BI.tight) =
      .ok ({mkKw ⟨7, ⟨0, 0, 4, 3⟩, [], false, "w", "k"⟩ Fmt.png (some 2) BI.tight with
              bbox_inches := BI.box (tightBBox 2 1 ⟨7, ⟨0, 0, 4, 3⟩, [], false, "w", "k"⟩)},
           ⟨[(7, tightBBox 2 1 ⟨7, ⟨0, 0, 4, 3⟩, [], false, "w", "k"⟩)], 0 + 1⟩) ∧
    computeBboxE (some 5) 3 ⟨[(7, tightBBox 2 1 ⟨7, ⟨0, 0, 4, 3⟩, [], false, "w", "k"⟩)], 0 + 1⟩
        ⟨7, ⟨0, 0, 4, 3⟩, [], false, "w", "k"⟩
        (mkKw ⟨7, ⟨0, 0, 4, 3⟩, [], false, "w", "k"⟩ Fmt.png (some 2) BI.tight) =
      .ok ({mkKw ⟨7, ⟨0, 0, 4, 3⟩, [], false, "w", "k"⟩ Fmt.png (some 2) BI.tight with
              bbox_inches := BI.box (tightBBox 2 1 ⟨7, ⟨0, 0, 4, 3⟩, [], false, "w", "k"⟩)},
           ⟨[(7, tightBBox 2 1 ⟨7, ⟨0, 0, 4, 3⟩, [], false, "w", "k"⟩)], 0 + 1⟩)) :=
  ⟨rfl, rfl, rfl, rfl,
    compute_bbox_caches_tight_crop 2 1 3 (some 5) ⟨[], 0⟩
      ⟨7, ⟨0, 0, 4, 3⟩, [], false, "w", "k"⟩ _ _ rfl rfl rfl rfl rfl rfl⟩

/-- C5: when the requested crop is not tight or the format is not png,
`_compute_bbox` returns the keyword mapping exactly as supplied and neither
consults nor creates any cache entry (the renderer state is unchanged). -/
theorem compute_bbox_other_formats (dpi : Option ℚ) (pad : ℚ) (st : RState)
    (fig : Figure) (kw : KW)
    (h : ¬(kw.bbox_inches = BI.tight ∧ kw.format = Fmt.png)) :
    computeBboxE dpi pad st fig kw = .ok (kw, st) := by
  simp [computeBboxE, h]

/-- Witness for C5 at an svg request. -/
theorem compute_bbox_other_formats_witness :
    ¬((mkKw ⟨7, ⟨0, 0, 4, 3⟩, [], false, "w", "k"⟩ Fmt.svg (some 2) BI.tight).bbox_inches = BI.tight ∧
      (mkKw ⟨7, ⟨0, 0, 4, 3⟩, [], false, "w", "k"⟩ Fmt.svg (some 2) BI.tight).format = Fmt.png) ∧
    computeBboxE (some 2) 1 ⟨[], 0⟩ ⟨7, ⟨0, 0, 4, 3⟩, [], false, "w", "k"⟩
        (mkKw ⟨7, ⟨0, 0, 4, 3⟩, [], false, "w", "k"⟩ Fmt.svg (some 2) BI.tight) =
      .ok (mkKw ⟨7, ⟨0, 0, 4, 3⟩, [], false, "w", "k"⟩ Fmt.svg (some 2) BI.tight, ⟨[], 0⟩) :=
  ⟨by decide,
    compute_bbox_other_formats (some 2) 1 ⟨[], 0⟩ ⟨7, ⟨0, 0, 4, 3⟩, [], false, "w", "k"⟩ _
      (by decide)⟩

/-- C4: on the static path, if the tight-bounding-box computation raises any
exception, `_figure_data` swallows it and prints the figure with the
caller's keyword mapping (default crop settings) unchanged, leaving the
cache state untouched — a bounding-box failure never aborts the render. -/
theorem figure_data_swallows_bbox_failure (dpi : Option ℚ) (pad : ℚ) (st : RState)
    (fig : Figure) (fmt : Fmt) (bbox0 : BI) (e : Err)
    (h : computeBboxE dpi pad st fig (mkKw fig fmt dpi bbox0) = .error e) :
    figureData Mode.defaultMode dpi pad st fig fmt bbox0 =
      (FigOutput.printed fig.figId (mkKw fig fmt dpi bbox0), st) := by
  simp [figureData, h]

/-- Witness for C4: a figure whose canvas draw raises. -/
theorem figure_data_swallows_bbox_failure_witness :
    computeBboxE (some 2) 1 ⟨[], 0⟩ ⟨7, ⟨0, 0, 4, 3⟩, [], true, "w", "k"⟩
        (mkKw ⟨7, ⟨0, 0, 4, 3⟩, [], true, "w", "k"⟩ Fmt.png (some 2) BI.tight) =
      .error Err.drawError ∧
    figureData Mode.defaultMode (some 2) 1 ⟨[], 0⟩ ⟨7, ⟨0, 0, 4, 3⟩, [], true, "w", "k"⟩
        Fmt.png BI.tight =
      (FigOutput.printed 7
        (mkKw ⟨7, ⟨0, 0, 4, 3⟩, [], true, "w", "k"⟩ Fmt.png (some 2) BI.tight), ⟨[], 0⟩) :=
  ⟨rfl,
    figure_data_swallows_bbox_failure (some 2) 1 ⟨[], 0⟩
      ⟨7, ⟨0, 0, 4, 3⟩, [], true, "w", "k"⟩ Fmt.png BI.tight Err.drawError rfl⟩

/-- Appending a link extends exactly its source's sequence. -/
theorem lookupLinks_addLink (reg : Registry) (l : SLink) :
    lookupLinks (addLink reg l) l.source = lookupLinks reg l.source ++ [l] := by
  induction reg with
  | nil => simp [addLink, lookupLinks]
  | cons p rest ih =>
    obtain ⟨k, ls⟩ := p
    by_cases hk : k = l.source
    · simp [addLink, lookupLinks, hk]
    · simp [addLink, lookupLinks, hk, ih]

/-- A link matches its own (source, target, kind) triple. -/
theorem sameTriple_self (l : SLink) : sameTriple l l = true := by
  simp [sameTriple]

/-- C2: declaring the identical link twice is idempotent — starting from a
registry with no entry for the (source, target, kind) triple, after the
second declaration the registry holds exactly one entry for that source
with that triple (not two), and the second declaration leaves the registry
unchanged. -/
theorem declare_twice_single_entry (reg : Registry) (l : SLink)
    (h : tripleCount reg l = 0) :
    tripleCount (declare (declare reg l) l) l = 1 ∧
      declare (declare reg l) l = declare reg l := by
  have hfil : (lookupLinks reg l.source).filter (fun e => sameTriple e l) = [] := by
    unfold tripleCount at h
    exact List.length_eq_zero.mp h
  have hnone : ∀ e ∈ lookupLinks reg l.source, ¬ sameTriple e l := by
    intro e he hs
    have hmem : e ∈ (lookupLinks reg l.source).filter (fun x => sameTriple x l) :=
      List.mem_filter.mpr ⟨he, hs⟩
    rw [hfil] at hmem
    exact (List.not_mem_nil e) hmem
  have hany : ((lookupLinks reg l.source).any (fun e => sameTriple e l)) = false := by
    by_contra hcon
    have : (lookupLinks reg l.source).any (fun e => sameTriple e l) = true := by
      revert hcon
      cases (lookupLinks reg l.source).any (fun e => sameTriple e l) <;> simp
    obtain ⟨e, he, hs⟩ := List.any_eq_true.mp this
    exact hnone e he hs
  have hd1 : declare reg l = addLink reg l := by
    simp [declare, hany]
  have hlk : lookupLinks (addLink reg l) l.source = lookupLinks reg l.source ++ [l] :=
    lookupLinks_addLink reg l
  have hany2 : ((lookupLinks (addLink reg l) l.source).any (fun e => sameTriple e l)) = true := by
    rw [hlk]
    refine List.any_eq_true.mpr ⟨l, ?_, sameTriple_self l⟩
    exact List.mem_append_right _ (List.mem_singleton.mpr rfl)
  have hd2 : declare (addLink reg l) l = addLink reg l := by
    simp [declare, hany2]
  refine ⟨?_, by rw [hd1, hd2]⟩
  rw [hd1, hd2]
  unfold tripleCount
  rw [hlk, List.filter_append, hfil]
  simp [sameTriple_self]

/-- Witness for C2: declaring the same data-link twice in an empty registry. -/
theorem declare_twice_single_entry_witness :
    tripleCount ([] : Registry) ⟨1, 2, LinkKind.dataLink, ⟨true, false⟩, false⟩ = 0 ∧
    tripleCount
        (declare (declare ([] : Registry) ⟨1, 2, LinkKind.dataLink, ⟨true, false⟩, false⟩)
          ⟨1, 2, LinkKind.dataLink, ⟨true, false⟩, false⟩)
        ⟨1, 2, LinkKind.dataLink, ⟨true, false⟩, false⟩ = 1 ∧
    declare (declare ([] : Registry) ⟨1, 2, LinkKind.dataLink, ⟨true, false⟩, false⟩)
        ⟨1, 2, LinkKind.dataLink, ⟨true, false⟩, false⟩ =
      declare ([] : Registry) ⟨1, 2, LinkKind.dataLink, ⟨true, false⟩, false⟩ :=
  ⟨rfl,
    (declare_twice_single_entry [] ⟨1, 2, LinkKind.dataLink, ⟨true, false⟩, false⟩ rfl).1,
    (declare_twice_single_entry [] ⟨1, 2, LinkKind.dataLink, ⟨true, false⟩, false⟩ rfl).2⟩

/-- C3: resolving a range-link restricted to the x axis makes the target
sub-plot's x-range handle the very object the source side holds, while the
y-range handles of source and target stay distinct (the target keeps its
own y handle). -/
theorem range_link_single_axis (src tgt : Handles)
    (h : src.y_range ≠ tgt.y_range) :
    (resolveRangeLink ⟨true, false⟩ src tgt).x_range = src.x_range ∧
    (resolveRangeLink ⟨true, false⟩ src tgt).y_range = tgt.y_range ∧
    (resolveRangeLink ⟨true, false⟩ src tgt).y_range ≠ src.y_range := by
  refine ⟨rfl, rfl, ?_⟩
  simp only [resolveRangeLink]
  exact fun hh => h hh.symm

/-- Witness for C3 at concrete distinct handles. -/
theorem range_link_single_axis_witness :
    (⟨10, 11⟩ : Handles).y_range ≠ (⟨20, 21⟩ : Handles).y_range ∧
    ((resolveRangeLink ⟨true, false⟩ ⟨10, 11⟩ ⟨20, 21⟩).x_range = (⟨10, 11⟩ : Handles).x_range ∧
     (resolveRangeLink ⟨true, false⟩ ⟨10, 11⟩ ⟨20, 21⟩).y_range = (⟨20, 21⟩ : Handles).y_range ∧
     (resolveRangeLink ⟨true, false⟩ ⟨10, 11⟩ ⟨20, 21⟩).y_range ≠ (⟨10, 11⟩ : Handles).y_range) :=
  ⟨by decide, range_link_single_axis ⟨10, 11⟩ ⟨20, 21⟩ (by decide)⟩

/-- Whether an extra-argument table value is a non-empty list (the reading
the spec sentence uses; the `None` entry of the scrubber row is not a
non-empty list). -/
def extraNonEmpty : Option (List String) → Bool
  | some (_ :: _) => true
  | _ => false

/-- Counterexample to C6 as stated: for the scrubber entry of the pipeline
table the extra-argument value is `None` — not a non-empty list — yet the
source's `extra_args != []` test merges it into the encoder options. -/
theorem anim_extra_args_none_merged :
    ANIMATION_OPTS Fmt.scrubber = some ⟨"html", none, [("fps", Val.num 5)], none⟩ ∧
    extraNonEmpty (none : Option (List String)) = false ∧
    slookup (animSaveKwargs none 20 Fmt.scrubber ⟨"html", none, [("fps", Val.num 5)], none⟩)
        "extra_args" = some (Val.args none) := by
  refine ⟨rfl, rfl, ?_⟩
  rfl

/-- C6 (amended): for every format in the pipeline table, the `extra_args`
entry reaches the encoder options exactly when the table value differs from
the empty list (so the scrubber row's `None` is merged as well); `dpi` is
merged exactly when a dpi is configured (not `None`); an `fps` entry is
present exactly for the gif and scrubber rows. -/
theorem anim_option_merging (fmt : Fmt) (opt : AnimOpt) (dpi : Option ℚ) (fps : ℚ)
    (h : ANIMATION_OPTS fmt = some opt) :
    ((slookup (animSaveKwargs dpi fps fmt opt) "extra_args").isSome ↔ opt.extraArgs ≠ some []) ∧
    ((slookup (animSaveKwargs dpi fps fmt opt) "dpi").isSome ↔ dpi.isSome) ∧
    ((slookup (animSaveKwargs dpi fps fmt opt) "fps").isSome ↔
      (fmt = Fmt.gif ∨ fmt = Fmt.scrubber)) := by
  cases fmt with
  | png => exact absurd h (by simp [ANIMATION_OPTS])
  | svg => exact absurd h (by simp [ANIMATION_OPTS])
  | pdf => exact absurd h (by simp [ANIMATION_OPTS])
  | html => exact absurd h (by simp [ANIMATION_OPTS])
  | json => exact absurd h (by simp [ANIMATION_OPTS])
  | webm =>
    have h2 : (⟨"ffmpeg", some "webm", [], some ["-vcodec", "libvpx", "-b", "1000k"]⟩ : AnimOpt) = opt :=
      Option.some.inj h
    subst h2
    rcases dpi with _ | d
    · simp [animSaveKwargs, dictMerge, slookup]
    · by_cases hd : d = 0 <;> simp [animSaveKwargs, dictMerge, slookup, hd]
  | mp4 =>
    have h2 : (⟨"ffmpeg", some "mp4", [("codec", Val.str "libx264")], some ["-pix_fmt", "yuv420p"]⟩ : AnimOpt) = opt :=
      Option.some.inj h
    subst h2
    rcases dpi with _ | d
    · simp [animSaveKwargs, dictMerge, slookup]
    · by_cases hd : d = 0 <;> simp [animSaveKwargs, dictMerge, slookup, hd]
  | gif =>
    have h2 : (⟨"imagemagick", some "gif", [("fps", Val.num 10)], some []⟩ : AnimOpt) = opt :=
      Option.some.inj h
    subst h2
    rcases dpi with _ | d
    · simp [animSaveKwargs, dictMerge, slookup]
    · by_cases hd : d = 0 <;> simp [animSaveKwargs, dictMerge, slookup, hd]
  | scrubber =>
    have h2 : (⟨"html", none, [("fps", Val.num 5)], none⟩ : AnimOpt) = opt :=
      Option.some.inj h
    subst h2
    rcases dpi with _ | d
    · simp [animSaveKwargs, dictMerge, slookup]
    · by_cases hd : d = 0 <;> simp [animSaveKwargs, dictMerge, slookup, hd]

/-- Witness for the amended C6 at the webm row with a configured dpi. -/
theorem anim_option_merging_witness :
    ANIMATION_OPTS Fmt.webm =
      some ⟨"ffmpeg", some "webm", [], some ["-vcodec", "libvpx", "-b", "1000k"]⟩ ∧
    (((slookup (animSaveKwargs (some 100) 20 Fmt.webm
          ⟨"ffmpeg", some "webm", [], some ["-vcodec", "libvpx", "-b", "1000k"]⟩)
        "extra_args").isSome ↔
        (⟨"ffmpeg", some "webm", [], some ["-vcodec", "libvpx", "-b", "1000k"]⟩ : AnimOpt).extraArgs ≠ some []) ∧
     ((slookup (animSaveKwargs (some 100) 20 Fmt.webm
          ⟨"ffmpeg", some "webm", [], some ["-vcodec", "libvpx", "-b", "1000k"]⟩)
        "dpi").isSome ↔ (some (100 : ℚ)).isSome) ∧
     ((slookup (animSaveKwargs (some 100) 20 Fmt.webm
          ⟨"ffmpeg", some "webm", [], some ["-vcodec", "libvpx", "-b", "1000k"]⟩)
        "fps").isSome ↔ (Fmt.webm = Fmt.gif ∨ Fmt.webm = Fmt.scrubber))) :=
  ⟨rfl,
    anim_option_merging Fmt.webm
      ⟨"ffmpeg", some "webm", [], some ["-vcodec", "libvpx", "-b", "1000k"]⟩
      (some 100) 20 rfl⟩

/-- Whether a render result is an `EnvironmentError`. -/
def isEnvErrOut : Except Err (Option Output) → Bool
  | .error (Err.environmentError _) => true
  | _ => false

/-- Counterexample to C7 as stated: on Python 3 with matplotlib 1.3.1, a
webm render of a concrete plot fails fast — but with a bare `Exception`
carrying the markup message, not with an `EnvironmentError`. -/
theorem call_broken_env_not_enverror :
    (callRenderer ⟨3, "1.3.1"⟩ Mode.defaultMode (some 72) 20 (1 / 10) ⟨[], 0⟩
        (some ⟨⟨7, ⟨0, 0, 4, 3⟩, [], false, "w", "k"⟩, ⟨0, false⟩⟩) Fmt.webm).1 =
      .error (Err.exception brokenAnimMsg) ∧
    isEnvErrOut (callRenderer ⟨3, "1.3.1"⟩ Mode.defaultMode (some 72) 20 (1 / 10) ⟨[], 0⟩
        (some ⟨⟨7, ⟨0, 0, 4, 3⟩, [], false, "w", "k"⟩, ⟨0, false⟩⟩) Fmt.webm).1 = false :=
  ⟨rfl, rfl⟩

/-- C7 (amended): for every multi-frame (non-static) format, on the
known-broken combination of Python 3 with a matplotlib version truncating
to 1.2 or 1.3, the renderer fails fast with a bare descriptive `Exception`
(not an `EnvironmentError`) before constructing the animation or invoking
the external encoder, leaving the renderer state untouched. -/
theorem call_broken_env_fails_fast (env : Env) (mode : Mode) (dpi : Option ℚ)
    (fps pad : ℚ) (st : RState) (plot : Plot) (fmt : Fmt)
    (hfmt : fmt ∉ figFormats) (hpy : env.pyMajor = 3)
    (hver : verTrunc env.mplVersion = "1.2" ∨ verTrunc env.mplVersion = "1.3") :
    callRenderer env mode dpi fps pad st (some plot) fmt =
      (.error (Err.exception brokenAnimMsg), st, ⟨0, 0⟩) := by
  rcases hver with hv | hv <;> simp [callRenderer, hfmt, hpy, hv]

/-- Witness for the amended C7. -/
theorem call_broken_env_fails_fast_witness :
    Fmt.webm ∉ figFormats ∧
    (⟨3, "1.3.1"⟩ : Env).pyMajor = 3 ∧
    (verTrunc (⟨3, "1.3.1"⟩ : Env).mplVersion = "1.2" ∨
      verTrunc (⟨3, "1.3.1"⟩ : Env).mplVersion = "1.3") ∧
    callRenderer ⟨3, "1.3.1"⟩ Mode.defaultMode (some 72) 20 (1 / 10) ⟨[], 0⟩
        (some ⟨⟨7, ⟨0, 0, 4, 3⟩, [], false, "w", "k"⟩, ⟨0, false⟩⟩) Fmt.webm =
      (.error (Err.exception brokenAnimMsg), ⟨[], 0⟩, ⟨0, 0⟩) :=
  ⟨by decide, rfl, Or.inr rfl,
    call_broken_env_fails_fast ⟨3, "1.3.1"⟩ Mode.defaultMode (some 72) 20 (1 / 10) ⟨[], 0⟩
      ⟨⟨7, ⟨0, 0, 4, 3⟩, [], false, "w", "k"⟩, ⟨0, false⟩⟩ Fmt.webm
      (by decide) rfl (Or.inr rfl)⟩

/-- Whether a save result is an `UnsupportedOperationError`. -/
def isUnsupportedOpErr : Except Err Unit → Bool
  | .error (Err.unsupportedOperationError _) => true
  | _ => false

/-- Counterexample to C8 as stated: a save call with a non-empty key mapping
fails before any rendering or file write — but with a bare `Exception`
carrying the metadata message, not with an `UnsupportedOperationError`. -/
theorem save_metadata_not_unsupported :
    saveRenderer ⟨3, "1.5.1"⟩ Mode.defaultMode (some 72) 20 (1 / 10) ⟨[], 0⟩
        [("title", "t")] [] none "out" Fmt.png =
      (.error (Err.exception "MPLRenderer does not support saving metadata to file."), ⟨0, []⟩) ∧
    isUnsupportedOpErr (saveRenderer ⟨3, "1.5.1"⟩ Mode.defaultMode (some 72) 20 (1 / 10) ⟨[], 0⟩
        [("title", "t")] [] none "out" Fmt.png).1 = false :=
  ⟨rfl, rfl⟩

/-- C8 (amended): a save call supplying non-empty out-of-band metadata (a
non-empty key or info mapping) fails with a bare `Exception` (not an
`UnsupportedOperationError`) before any rendering happens and before any
file is written — zero render invocations and an empty written-file list. -/
theorem save_metadata_guard (env : Env) (mode : Mode) (dpi : Option ℚ) (fps pad : ℚ)
    (st : RState) (key info : List (String × String)) (plotOpt : Option Plot)
    (basename : String) (fmt : Fmt)
    (h : key ≠ [] ∨ info ≠ []) :
    saveRenderer env mode dpi fps pad st key info plotOpt basename fmt =
      (.error (Err.exception "MPLRenderer does not support saving metadata to file."),
        ⟨0, []⟩) := by
  rcases h with hk | hi
  · simp [saveRenderer, hk]
  · simp [saveRenderer, hi]

/-- Witness for the amended C8. -/
theorem save_metadata_guard_witness :
    (([("title", "t")] : List (String × String)) ≠ [] ∨ ([] : List (String × String)) ≠ []) ∧
    saveRenderer ⟨3, "1.5.1"⟩ Mode.defaultMode (some 72) 20 (1 / 10) ⟨[], 0⟩
        [("title", "t")] [] none "out" Fmt.png =
      (.error (Err.exception "MPLRenderer does not support saving metadata to file."),
        ⟨0, []⟩) :=
  ⟨Or.inl (by decide),
    save_metadata_guard ⟨3, "1.5.1"⟩ Mode.defaultMode (some 72) 20 (1 / 10) ⟨[], 0⟩
      [("title", "t")] [] none "out" Fmt.png (Or.inl (by decide))⟩

/-- Counterexample to C9 as stated: an object whose resolved options set
`fig_inches` to the pair (4, 4), rendered at 50 percent, should by the
claim yield the scaled pair (2, 2); the merge order of the source instead
returns the raw option pair (4, 4). -/
theorem plot_options_not_scaled :
    slookup (plot_options 4 [("fig_inches", PVal.pair 4 4)] 50) "fig_inches" =
      some (PVal.pair 4 4) ∧
    PVal.pair 4 4 ≠ PVal.pair (4 * (50 / 100)) (4 * (50 / 100)) := by
  refine ⟨rfl, ?_⟩
  intro hc
  have h4 : (4 : ℚ) = 4 * (50 / 100) := congrArg (fun p => match p with
    | PVal.pair a _ => a
    | _ => 0) hc
  norm_num at h4

/-- C9 (amended): `plot_options` is a pure computation of its inputs; the
`fig_inches` entry of its result equals the raw resolved option whenever the
object sets one explicitly (pair or scalar — the right-biased dict merge
overrides the scaled value, and the scalar branch ignores the resolved
scalar in favour of the class default), and equals the class default scaled
by `percent_size / 100` when no explicit option is present. -/
theorem plot_options_fig_inches (d : ℚ) (opts : List (String × PVal)) (p : ℚ) :
    slookup (plot_options d opts p) "fig_inches" =
      some ((slookup opts "fig_inches").getD (PVal.scalar (d * (p / 100)))) := by
  unfold plot_options dictMerge
  cases hfi : slookup opts "fig_inches" with
  | none => simp [hfi, slookup]
  | some v =>
    cases v <;> simp [hfi, slookup]

/-- C10: `_anim_data` returns the encoded byte payload exactly for
animations that do not already carry the `_encoded_video` attribute; when
the attribute is present the encoding block is skipped, the result variable
is never assigned, and the function raises an unbound-name error instead of
returning the previous encoding. -/
theorem anim_data_requires_unencoded (dpi : Option ℚ) (fps : ℚ) (anim : AnimObj)
    (fmt : Fmt) (opt : AnimOpt) (h : ANIMATION_OPTS fmt = some opt) :
    (anim.hasEncodedVideo = false →
      animDataE dpi fps anim fmt =
        .ok ⟨opt.writer, animSaveKwargs dpi fps fmt opt, anim.animId⟩) ∧
    (anim.hasEncodedVideo = true →
      animDataE dpi fps anim fmt = .error (Err.nameError "video")) := by
  constructor <;> intro hv <;> simp [animDataE, h, hv]

/-- Witness for C10: both branches at the mp4 row. -/
theorem anim_data_requires_unencoded_witness :
    ANIMATION_OPTS Fmt.mp4 =
      some ⟨"ffmpeg", some "mp4", [("codec", Val.str "libx264")], some ["-pix_fmt", "yuv420p"]⟩ ∧
    ((⟨5, false⟩ : AnimObj).hasEncodedVideo = false →
      animDataE (some 72) 20 ⟨5, false⟩ Fmt.mp4 =
        .ok ⟨"ffmpeg",
          animSaveKwargs (some 72) 20 Fmt.mp4
            ⟨"ffmpeg", some "mp4", [("codec", Val.str "libx264")], some ["-pix_fmt", "yuv420p"]⟩,
          5⟩) ∧
    ((⟨6, true⟩ : AnimObj).hasEncodedVideo = true →
      animDataE (some 72) 20 ⟨6, true⟩ Fmt.mp4 = .error (Err.nameError "video")) :=
  ⟨rfl,
    (anim_data_requires_unencoded (some 72) 20 ⟨5, false⟩ Fmt.mp4
      ⟨"ffmpeg", some "mp4", [("codec", Val.str "libx264")], some ["-pix_fmt", "yuv420p"]⟩ rfl).1,
    (anim_data_requires_unencoded (some 72) 20 ⟨6, true⟩ Fmt.mp4
      ⟨"ffmpeg", some "mp4", [("codec", Val.str "libx264")], some ["-pix_fmt", "yuv420p"]⟩ rfl).2⟩

end DataViews

